import Mathlib

/-!
Shallow embedding of the deterministic divination engine of the
`tarot-oracle` repository (file `tarot_oracle/tarot.py`), together with
theorems settling the claims about it.

Conventions of the embedding:
* Python `str` is Lean `String`; comparisons and sorting use the
  code-point lexicographic order (Python's `<` on `str`), which is the
  order of Lean's `String` linear order.
* Python arbitrary-precision non-negative `int` is `Nat`; layout cells,
  which may be any integer, are `Int`.
* Stateful methods are explicit state passing: the pseudo-random
  generator threads its `state : Nat`, the deck methods take and return
  a `Deck` value.
* Fallible code returns `Except String`.
* `secrets.token_bytes` is modelled by an explicit `entropy : List Nat`
  parameter holding the bytes the operating system would return.
-/

/-- A single tarot card (Python dataclass `Card`).  `suit` is `none` for
major arcana; `is_reversed` is set only during shuffling. -/
structure Card where
  name : String
  card_type : String
  suit : Option String
  value : String
  keywords : String
  reversed_keywords : Option String := none
  is_reversed : Bool := false
deriving DecidableEq, Repr

/-- `Card.get_notation_code`: raw card code without formatting. -/
def Card.getNotationCode (c : Card) : String :=
  if c.card_type = "major" then c.value
  else c.suit.getD "" ++ c.value

/-- Left-justify a string in a field of `width` characters, as Python
`f"{code:<4}"` does (no truncation when longer than the field). -/
def padRight (s : String) (width : Nat) : String :=
  s ++ String.mk (List.replicate (width - s.length) ' ')

/-- `Card.get_notation`: bracketed card token with reversal marker.  The
source documents it as 7 characters wide. -/
def Card.getNotation (c : Card) : String :=
  let code := c.getNotationCode
  if c.is_reversed then
    "[↓" ++ padRight code 4 ++ "]"
  else
    "[ " ++ padRight code 4 ++ "]"

/-- The `MAJOR_ARCANA` keyword dictionary (name ↦ keywords). -/
def MAJOR_ARCANA : List (String × String) := [
  ("Fool", "New beginnings, innocence, spontaneity, trust, faith, leap of faith"),
  ("Magician", "Manifestation, skill, willpower, action, creation, resourcefulness, focused intention"),
  ("High Priestess", "Intuition, secrets, hidden knowledge, subconscious, mystery, divine feminine"),
  ("Empress", "Abundance, fertility, nurturing, nature, creativity, manifestation, earth mother"),
  ("Emperor", "Authority, structure, control, father figure, stability, leadership, establishment"),
  ("Hierophant", "Tradition, wisdom, institutions, conformity, spiritual guidance, organized belief"),
  ("Lovers", "Choice, partnership, harmony, union, alignment, values, soul connection"),
  ("Chariot", "Determination, victory, willpower, control, forward movement, self-discipline"),
  ("Strength", "Courage, inner strength, compassion, patience, taming wild nature, gentle power"),
  ("Hermit", "Introspection, soul searching, solitude, inner guidance, wisdom, spiritual isolation"),
  ("Wheel of Fortune", "Cycles, destiny, change, luck, turning points, karma, fate"),
  ("Justice", "Balance, fairness, truth, law, cause and effect, accountability, karmic justice"),
  ("Hanged Man", "Surrender, pause, new perspectives, sacrifice, letting go, suspension"),
  ("Death", "Transformation, endings, change, rebirth, transition, release, new chapter"),
  ("Temperance", "Moderation, balance, patience, synthesis, healing, middle path, alchemy"),
  ("Devil", "Bondage, materialism, addiction, shadow work, limitation, breaking chains"),
  ("Tower", "Upheaval, revelation, sudden change, chaos, awakening, truth revealed"),
  ("Star", "Hope, inspiration, guidance, healing, renewal, spiritual connection"),
  ("Moon", "Illusion, fear, anxiety, subconscious, intuition, hidden truths, dreams"),
  ("Sun", "Joy, success, vitality, clarity, optimism, achievement, enlightenment"),
  ("Judgement", "Awakening, rebirth, calling, purpose, forgiveness, new phase"),
  ("World", "Completion, integration, accomplishment, fulfillment, wholeness, success")]

/-- The `MINOR_ARCANA` keyword dictionary (code ↦ keywords). -/
def MINOR_ARCANA : List (String × String) := [
  ("W_A", "Fire energy, new beginnings, creative spark, inspiration, passion, initiative, opportunity"),
  ("W_2", "Fire energy, planning, future vision, making decisions, progress, forward movement"),
  ("W_3", "Fire energy, expansion, growth, celebration, communication, leadership, future planning"),
  ("W_4", "Fire energy, stability, foundation, security, celebration, harmony, homecoming"),
  ("W_5", "Fire energy, competition, conflict, inner strength, challenge, sportsmanship"),
  ("W_6", "Fire energy, victory, recognition, public success, achievement, acclaim"),
  ("W_7", "Fire energy, defense, courage, conviction, standing ground, moral position"),
  ("W_8", "Fire energy, rapid movement, messages, communication, quick action, haste"),
  ("W_9", "Fire energy, strength, resilience, protection, readiness, defense"),
  ("W_10", "Fire energy, completion, fulfillment, responsibility, burden, success"),
  ("W_P", "Fire energy, creative spark, new passion, youthful enthusiasm, opportunity"),
  ("W_N", "Fire energy, action, movement, swift change, enthusiasm, adventure"),
  ("W_Q", "Fire energy, mature creativity, leadership, confidence, passion, inspiration"),
  ("W_K", "Fire energy, mastery, creative leadership, vision, inspiration, authority"),
  ("C_A", "Water energy, emotional new beginnings, love, intuition, new relationships, creative flow"),
  ("C_2", "Water energy, partnership, harmony, union, emotional connection, balance"),
  ("C_3", "Water energy, celebration, community, friendship, emotional abundance, joy"),
  ("C_4", "Water energy, emotional security, stability, foundations, home, relationships"),
  ("C_5", "Water energy, loss, disappointment, emotional transition, letting go, change"),
  ("C_6", "Water energy, emotional support, generosity, sharing, giving, nostalgia"),
  ("C_7", "Water energy, choices, reflection, inner wisdom, emotional decision, retreat"),
  ("C_8", "Water energy, moving on from emotional past, new opportunities, change, transition"),
  ("C_9", "Water energy, emotional satisfaction, dreams fulfilled, wishes come true, contentment"),
  ("C_10", "Water energy, emotional completion, family harmony, emotional abundance, fulfillment"),
  ("C_P", "Water energy, emotional curiosity, creative intuition, new emotional opportunities"),
  ("C_N", "Water energy, emotional action, romance, communication, messages, movement"),
  ("C_Q", "Water energy, emotional mastery, compassion, nurturing, mature feelings, wisdom"),
  ("C_K", "Water energy, emotional control, stability, mature emotions, relationship mastery"),
  ("S_A", "Air energy, mental clarity, new ideas, breakthrough, intellectual power, truth"),
  ("S_2", "Air energy, indecision, stalemate, choices, mental conflict, blocked thinking"),
  ("S_3", "Air energy, heartbreak, sorrow, painful truth, mental separation, grief"),
  ("S_4", "Air energy, rest, meditation, recovery, mental pause, truce"),
  ("S_5", "Air energy, victory through cunning, strategy, escape, Pyrrhic victory"),
  ("S_6", "Air energy, mental recovery, new paths, moving on, intellectual transition"),
  ("S_7", "Air energy, deception, strategy, withdrawal, cunning, intellect, escape"),
  ("S_8", "Air energy, mental restriction, feeling trapped, isolation, powerlessness"),
  ("S_9", "Air energy, mental anguish, worry, anxiety, sleepless nights, mental burden"),
  ("S_10", "Air energy, mental ruin, complete breakdown, disaster, bottom, rock bottom"),
  ("S_P", "Air energy, mental curiosity, new ideas, intellectual opportunity, learning"),
  ("S_N", "Air energy, intellectual action, communication, messages, change, movement"),
  ("S_Q", "Air energy, intellectual mastery, wisdom, emotional clarity, mature thinking"),
  ("S_K", "Air energy, mental power, authority, intellectual control, truth, command"),
  ("P_A", "Earth energy, material new beginnings, prosperity, opportunity, manifestation"),
  ("P_2", "Earth energy, financial balance, juggling resources, flexibility, adaptation"),
  ("P_3", "Earth energy, skilled work, craftsmanship, collaboration, team effort, mastery"),
  ("P_4", "Earth energy, material security, stability, foundations, conservation, protection"),
  ("P_5", "Earth energy, material hardship, poverty, isolation, spiritual seeking"),
  ("P_6", "Earth energy, material generosity, giving, sharing, wealth distribution, charity"),
  ("P_7", "Earth energy, material patience, waiting, investment, long-term planning, harvest"),
  ("P_8", "Earth energy, skill mastery, apprenticeship, detailed work, craftsmanship"),
  ("P_9", "Earth energy, material abundance, luxury, success, financial security, comfort"),
  ("P_10", "Earth energy, material completion, family wealth, inheritance, legacy, fulfillment"),
  ("P_P", "Earth energy, material opportunity, learning, study, practical skills, manifestation"),
  ("P_N", "Earth energy, material action, steady progress, reliable work, methodical approach"),
  ("P_Q", "Earth energy, material nurturing, practical wisdom, abundance, prosperity management"),
  ("P_K", "Earth energy, material mastery, worldly success, enterprise, stability, wealth")]

/-- Association-list lookup with the semantics of a Python dictionary
read `d[key]` defaulting to the empty string (every key used by the deck
builder is present in the dictionaries above). -/
def dictGetD (d : List (String × String)) (key : String) : String :=
  match d.find? (fun p => p.1 = key) with
  | some p => p.2
  | none => ""

/-- The `(name, value)` pairs of the major arcana in `Deck._create_deck`. -/
def majorArcanaList : List (String × String) := [
  ("Fool", "0"), ("Magician", "I"), ("High Priestess", "II"), ("Empress", "III"),
  ("Emperor", "IV"), ("Hierophant", "V"), ("Lovers", "VI"), ("Chariot", "VII"),
  ("Strength", "VIII"), ("Hermit", "IX"), ("Wheel of Fortune", "X"), ("Justice", "XI"),
  ("Hanged Man", "XII"), ("Death", "XIII"), ("Temperance", "XIV"), ("Devil", "XV"),
  ("Tower", "XVI"), ("Star", "XVII"), ("Moon", "XVIII"), ("Sun", "XIX"),
  ("Judgement", "XX"), ("World", "XXI")]

/-- The suits dictionary of `Deck._create_deck`, in insertion order. -/
def suitsList : List (String × String) :=
  [("W", "Wands"), ("C", "Cups"), ("S", "Swords"), ("P", "Pentacles")]

/-- The `(value_letter, value_name)` pairs of `Deck._create_deck`. -/
def valuesList : List (String × String) := [
  ("A", "Ace"), ("2", "Two"), ("3", "Three"), ("4", "Four"), ("5", "Five"),
  ("6", "Six"), ("7", "Seven"), ("8", "Eight"), ("9", "Nine"), ("10", "Ten"),
  ("P", "Page"), ("N", "Knight"), ("Q", "Queen"), ("K", "King")]

/-- `Deck._create_deck`: the built-in deck, major arcana first, then the
four suits of minor arcana. -/
def createDeck : List Card :=
  (majorArcanaList.map (fun p =>
    { name := p.1, card_type := "major", suit := none, value := p.2,
      keywords := dictGetD MAJOR_ARCANA p.1 })) ++
  (suitsList.flatMap (fun s =>
    valuesList.map (fun v =>
      { name := v.2 ++ " of " ++ s.2, card_type := "minor", suit := some s.1,
        value := v.1,
        keywords := dictGetD MINOR_ARCANA (s.1 ++ "_" ++ v.1) })))

/-- The mutable state of a Python `Deck` object: the canonical card list
and the shuffled list (empty until a shuffle has run). -/
structure Deck where
  cards : List Card
  shuffled : List Card
deriving DecidableEq, Repr

/-- `Deck()` constructed without a custom deck path. -/
def Deck.standard : Deck := { cards := createDeck, shuffled := [] }

/-- `DeterministicRNG.next_int`: advances the linear congruential state
and returns `(drawn value, new state)`.  The Python state is an
arbitrary-precision integer masked with `0x7fffffff`. -/
def nextInt (state : Nat) (maxValue : Nat) : Nat × Nat :=
  let state' := (state * 1103515245 + 12345) &&& 0x7fffffff
  (state' % maxValue, state')

/-- Swap the elements at positions `i` and `j` of a list (the Python
parallel assignment `l[i], l[j] = l[j], l[i]`; indices produced by the
shuffle loop are always in range). -/
def listSwap (l : List α) (i j : Nat) : List α :=
  match l[i]?, l[j]? with
  | some a, some b => (l.set i b).set j a
  | _, _ => l

/-- The Fisher-Yates loop `for i in range(n - 1, 0, -1)` of
`Deck.shuffle_and_assign_reversals`, called with `n - 1`: the argument
`i + 1` is the current Python loop index, counting down to 1. -/
def fyLoop : List Card → Nat → Nat → List Card × Nat
  | l, state, 0 => (l, state)
  | l, state, i + 1 =>
    let p := nextInt state (i + 2)
    fyLoop (listSwap l (i + 1) p.1) p.2 i

/-- The reversal-assignment pass of `Deck.shuffle_and_assign_reversals`:
one `next_int(2)` draw per card, in final shuffled left-to-right order,
reversed exactly when the draw is 1. -/
def assignReversals : List Card → Nat → List Card × Nat
  | [], state => ([], state)
  | c :: cs, state =>
    let p := nextInt state 2
    let rest := assignReversals cs p.2
    ({ c with is_reversed := p.1 == 1 } :: rest.1, rest.2)

/-- `Deck.shuffle_and_assign_reversals` as a pure function on the card
list and the generator state: copy the canonical order, Fisher-Yates
shuffle, then (only if `allow_reversed`) the reversal pass. -/
def shuffleAssignList (cards : List Card) (state : Nat)
    (allow_reversed : Bool) : List Card × Nat :=
  let n := cards.length
  let shuffledSt := fyLoop cards state (n - 1)
  if allow_reversed then
    assignReversals shuffledSt.1 shuffledSt.2
  else
    shuffledSt

/-- `Deck.shuffle_and_assign_reversals` at the level of the `Deck`
object: stores the shuffled list and returns the advanced generator
state.  (In Python the reversal pass also mutates the flags of the
shared `Card` objects reachable through `cards`; no modelled operation
reads `cards` after a shuffle, so this embedding leaves `cards` as the
pre-shuffle list.) -/
def Deck.shuffleAndAssignReversals (d : Deck) (state : Nat)
    (allow_reversed : Bool) : Deck × Nat :=
  let r := shuffleAssignList d.cards state allow_reversed
  ({ d with shuffled := r.1 }, r.2)

/-- `Deck.draw_cards`: the first `count` cards of the shuffled list, or
the invalid-state error when the deck was never shuffled.  A Python
slice `l[:count]` clamps, so no range check occurs. -/
def Deck.drawCards (d : Deck) (count : Nat) : Except String (List Card) :=
  if d.shuffled.isEmpty then
    Except.error "Deck must be shuffled before drawing cards"
  else
    Except.ok (d.shuffled.take count)

example : (createDeck.length = 78) := by decide

/-! ### Seed derivation (`TarotDivination.create_seed`)

`create_seed` SHA-256-hashes the UTF-8 encoding of the concatenated
inputs and reads the digest as a little-endian integer.  The hash is
embedded below (FIPS 180-4, as implemented by `hashlib.sha256`). -/

/-- UTF-8 encoding of one character. -/
def utf8Bytes (c : Char) : List Nat :=
  let n := c.toNat
  if n < 0x80 then [n]
  else if n < 0x800 then
    [0xC0 ||| (n >>> 6), 0x80 ||| (n &&& 0x3F)]
  else if n < 0x10000 then
    [0xE0 ||| (n >>> 12), 0x80 ||| ((n >>> 6) &&& 0x3F), 0x80 ||| (n &&& 0x3F)]
  else
    [0xF0 ||| (n >>> 18), 0x80 ||| ((n >>> 12) &&& 0x3F),
     0x80 ||| ((n >>> 6) &&& 0x3F), 0x80 ||| (n &&& 0x3F)]

/-- UTF-8 encoding of a string (Python `str.encode()`). -/
def strUtf8 (s : String) : List Nat := s.data.flatMap utf8Bytes

/-- 32-bit right rotation. -/
def ror32 (x n : Nat) : Nat := ((x >>> n) ||| (x <<< (32 - n))) % 4294967296

/-- The SHA-256 round constants. -/
def sha256K : List Nat := [
  1116352408, 1899447441, 3049323471, 3921009573, 961987163,
  1508970993, 2453635748, 2870763221, 3624381080, 310598401,
  607225278, 1426881987, 1925078388, 2162078206, 2614888103,
  3248222580, 3835390401, 4022224774, 264347078, 604807628,
  770255983, 1249150122, 1555081692, 1996064986, 2554220882,
  2821834349, 2952996808, 3210313671, 3336571891, 3584528711,
  113926993, 338241895, 666307205, 773529912, 1294757372,
  1396182291, 1695183700, 1986661051, 2177026350, 2456956037,
  2730485921, 2820302411, 3259730800, 3345764771, 3516065817,
  3600352804, 4094571909, 275423344, 430227734, 506948616,
  659060556, 883997877, 958139571, 1322822218, 1537002063,
  1747873779, 1955562222, 2024104815, 2227730452, 2361852424,
  2428436474, 2756734187, 3204031479, 3329325298]

/-- The SHA-256 initial hash value. -/
def sha256H0 : List Nat := [
  1779033703, 3144134277, 1013904242, 2773480762, 1359893119,
  2600822924, 528734635, 1541459225]

/-- `n` bytes of `v`, big-endian. -/
def bytesBE : Nat → Nat → List Nat
  | 0, _ => []
  | n + 1, v => bytesBE n (v / 256) ++ [v % 256]

/-- SHA-256 message padding: a `0x80` byte, zeros to 56 mod 64, then the
bit length in 8 big-endian bytes. -/
def sha256Pad (msg : List Nat) : List Nat :=
  let L := msg.length
  let k := (119 - L % 64) % 64
  msg ++ [0x80] ++ List.replicate k 0 ++ bytesBE 8 (L * 8)

/-- Big-endian 32-bit words of a byte list. -/
def toWords : List Nat → List Nat
  | b0 :: b1 :: b2 :: b3 :: rest =>
    (((b0 * 256 + b1) * 256 + b2) * 256 + b3) :: toWords rest
  | _ => []

/-- Extend the 16-word block to the 64-entry message schedule. -/
def sha256Schedule : Nat → Array Nat → Array Nat
  | 0, w => w
  | n + 1, w =>
    let i := w.size
    let x15 := w.getD (i - 15) 0
    let x2 := w.getD (i - 2) 0
    let s0 := (ror32 x15 7) ^^^ (ror32 x15 18) ^^^ (x15 >>> 3)
    let s1 := (ror32 x2 17) ^^^ (ror32 x2 19) ^^^ (x2 >>> 10)
    let wi := (w.getD (i - 16) 0 + s0 + w.getD (i - 7) 0 + s1) % 4294967296
    sha256Schedule n (w.push wi)

/-- One round of the SHA-256 compression function on the working
variables `[a, b, c, d, e, f, g, h]`. -/
def sha256Round (kw : Nat × Nat) (v : List Nat) : List Nat :=
  match v with
  | [a, b, c, d, e, f, g, h] =>
    let s1 := (ror32 e 6) ^^^ (ror32 e 11) ^^^ (ror32 e 25)
    let ch := (e &&& f) ^^^ ((0xffffffff ^^^ e) &&& g)
    let t1 := (h + s1 + ch + kw.1 + kw.2) % 4294967296
    let s0 := (ror32 a 2) ^^^ (ror32 a 13) ^^^ (ror32 a 22)
    let mj := (a &&& b) ^^^ (a &&& c) ^^^ (b &&& c)
    let t2 := (s0 + mj) % 4294967296
    [(t1 + t2) % 4294967296, a, b, c, (d + t1) % 4294967296, e, f, g]
  | _ => v

/-- Compress one 64-byte chunk into the hash state. -/
def sha256Chunk (h : List Nat) (chunk : List Nat) : List Nat :=
  let w := sha256Schedule 48 (List.toArray (toWords chunk))
  let v := (sha256K.zip w.toList).foldl (fun v kw => sha256Round kw v) h
  (h.zip v).map (fun p => (p.1 + p.2) % 4294967296)

/-- Process the padded message chunk by chunk (the fuel bounds the
number of 64-byte chunks). -/
def sha256Chunks : Nat → List Nat → List Nat → List Nat
  | 0, h, _ => h
  | fuel + 1, h, msg =>
    if msg.isEmpty then h
    else sha256Chunks fuel (sha256Chunk h (msg.take 64)) (msg.drop 64)

/-- The SHA-256 digest (32 bytes) of a byte message. -/
def sha256Bytes (msg : List Nat) : List Nat :=
  let padded := sha256Pad msg
  let h := sha256Chunks (padded.length / 64) sha256H0 padded
  h.flatMap (bytesBE 4)

/-- `int.from_bytes(digest, "little")`. -/
def fromBytesLE (bs : List Nat) : Nat :=
  bs.foldr (fun b acc => b + 256 * acc) 0

/-- Lowercase hex encoding of a byte list (Python `bytes.hex()`). -/
def hexDigit (n : Nat) : Char :=
  if n < 10 then Char.ofNat (48 + n) else Char.ofNat (87 + n)

/-- Hex string of a byte list. -/
def bytesHex (bs : List Nat) : String :=
  String.mk (bs.flatMap (fun b => [hexDigit (b / 16), hexDigit (b % 16)]))

/-- `TarotDivination.create_seed`.  The `entropy` argument models the
bytes `secrets.token_bytes(random_bytes)` would return; it is consulted
only when `random_bytes > 0`. -/
def createSeed (timestamp question : String) (invocation : Option String)
    (random_bytes : Nat) (entropy : List Nat) : Nat :=
  let seedData := timestamp ++ question
  let seedData :=
    match invocation with
    | some inv => if inv.isEmpty then seedData else seedData ++ "|" ++ inv
    | none => seedData
  let seedData :=
    if random_bytes > 0 then seedData ++ bytesHex (entropy.take random_bytes)
    else seedData
  fromBytesLE (sha256Bytes (strUtf8 seedData))

/-! ### Layout normalization and the draw pipeline -/

/-- The argument of `TarotDivination._normalize_spread_layout`: either a
flat row of integers or a row-major integer matrix (the Python code
distinguishes them with `isinstance(spread_layout[0], int)`). -/
inductive SpreadInput where
  | flat (row : List Int)
  | matrix (rows : List (List Int))
deriving DecidableEq, Repr

/-- `TarotDivination._normalize_spread_layout`: wrap a flat layout as a
single-row matrix (an empty input normalizes to the empty matrix) and
count the strictly positive cells, with multiplicity. -/
def normalizeSpreadLayout (spread_layout : SpreadInput) :
    List (List Int) × Nat :=
  let normalized :=
    match spread_layout with
    | .flat [] => []
    | .flat row => [row]
    | .matrix [] => []
    | .matrix rows => rows
  (normalized, ((normalized.flatten).filter (fun pos => 0 < pos)).length)

/-- `TarotDivination.draw_cards_for_reading` on a given deck state:
seed the generator, shuffle (with optional reversals), then draw as
many cards as the layout needs.  Returns the drawn cards and the deck
state after the call. -/
def drawCardsForReading (deck : Deck) (seed : Nat)
    (spread_layout : SpreadInput) (allow_reversed : Bool) :
    Except String (List Card) × Deck :=
  let shuffledDeck := (deck.shuffleAndAssignReversals seed allow_reversed).1
  let needed := (normalizeSpreadLayout spread_layout).2
  (shuffledDeck.drawCards needed, shuffledDeck)

/-- The count of distinct positive cells of a normalized matrix (the
quantity named by the draw-completeness claim; `_normalize_spread_layout`
itself counts positive cells with multiplicity). -/
def distinctPositiveCount (matrix : List (List Int)) : Nat :=
  ((matrix.flatten).filter (fun pos => 0 < pos)).dedup.length

/-! ### Semantic grouping (`SemanticAdapter`) -/

/-- `Card.get_keywords`: reversed keywords when reversed and present
(and non-empty, by Python truthiness), else the upright keywords. -/
def Card.getKeywords (c : Card) : String :=
  match c.reversed_keywords with
  | some rk => if c.is_reversed && !rk.isEmpty then rk else c.keywords
  | none => c.keywords

/-- The sorted list of distinct positive layout cells
(`sorted(set(pos for pos in flat_positions if pos > 0))`). -/
def uniquePositions (layout : List (List Int)) : List Int :=
  List.insertionSort (fun a b => a ≤ b)
    ((layout.flatten.filter (fun pos => 0 < pos)).dedup)

/-- Row and column of the first cell of `layout` equal to `v`, scanning
rows top to bottom and cells left to right. -/
def findCellAux : List (List Int) → Int → Nat → Option (Nat × Nat)
  | [], _, _ => none
  | r :: rs, v, i =>
    match r.findIdx? (fun pos => pos = v) with
    | some j => some (i, j)
    | none => findCellAux rs v (i + 1)

/-- `SemanticAdapter._get_semantic_for_position`: the semantics cell at
the first layout occurrence of `position`, or `none` when the semantics
matrix is empty or the cell is empty.  (Indexing uses a default for the
out-of-range case, which the adapter's dimension validation makes
unreachable.) -/
def getSemanticForPosition (layout : List (List Int))
    (semantics : List (List String)) (position : Int) : Option String :=
  if semantics.isEmpty then none
  else
    match findCellAux layout position 0 with
    | some rc =>
      let s := (semantics.getD rc.1 []).getD rc.2 ""
      if s.isEmpty then none else some s
    | none => none

/-- `SemanticAdapter._build_card_index_to_semantic` as a function: the
semantic label (if any) of the card drawn at index `idx`. -/
def cardIndexSemantic (layout : List (List Int))
    (semantics : List (List String)) (idx : Nat) : Option String :=
  match (uniquePositions layout)[idx]? with
  | some pos => getSemanticForPosition layout semantics pos
  | none => none

/-- The group label of draw index `idx` (missing semantic falls into
"General Information"). -/
def assignedLabel (layout : List (List Int))
    (semantics : List (List String)) (idx : Nat) : String :=
  (cardIndexSemantic layout semantics idx).getD "General Information"

/-- Append a card to the entry of `key` in an insertion-ordered
association list, creating the entry at the end when absent (Python
dictionary update). -/
def addToGroup (groups : List (String × List Card)) (key : String)
    (c : Card) : List (String × List Card) :=
  match groups with
  | [] => [(key, [c])]
  | (k, cs) :: rest =>
    if k = key then (k, cs ++ [c]) :: rest
    else (k, cs) :: addToGroup rest key c

/-- The accumulating loop of `SemanticAdapter._group_cards_by_semantic`. -/
def groupCardsAux (layout : List (List Int))
    (semantics : List (List String)) :
    List Card → Nat → List (String × List Card) → List (String × List Card)
  | [], _, groups => groups
  | c :: cs, idx, groups =>
    groupCardsAux layout semantics cs (idx + 1)
      (addToGroup groups (assignedLabel layout semantics idx) c)

/-- `SemanticAdapter._group_cards_by_semantic`: cards grouped by label,
groups in first-occurrence order, cards within a group in draw order. -/
def groupCardsBySemantic (layout : List (List Int)) (cards : List Card)
    (semantics : List (List String)) : List (String × List Card) :=
  groupCardsAux layout semantics cards 0 []

/-- Dictionary read `semantic_groups[k]` (empty when absent). -/
def lookupGroup (groups : List (String × List Card)) (k : String) :
    List Card :=
  match groups.find? (fun p => p.1 = k) with
  | some p => p.2
  | none => []

/-- The groups of `SemanticAdapter.render_semantic_legend` in rendered
order: named groups sorted by Python string comparison, then the
"General Information" group when present. -/
def legendGroups (layout : List (List Int)) (cards : List Card)
    (semantics : List (List String)) : List (String × List Card) :=
  let groups := groupCardsBySemantic layout cards semantics
  let semanticKeys := List.insertionSort (fun a b => a ≤ b)
    ((groups.map Prod.fst).filter (fun k => k ≠ "General Information"))
  semanticKeys.map (fun k => (k, lookupGroup groups k)) ++
    (if (groups.find? (fun p => p.1 = "General Information")).isSome then
      [("General Information", lookupGroup groups "General Information")]
    else [])

/-- `suit_names[card.suit or ""]` of the rendering helpers. -/
def suitName (s : String) : String := dictGetD suitsList s

/-- `SemanticAdapter._format_card_line`. -/
def formatCardLine (c : Card) (include_keywords : Bool) : String :=
  let type_name :=
    if c.card_type = "major" then "Major Arcana" else suitName (c.suit.getD "")
  let line := "  " ++ c.getNotation ++ " - " ++ c.name ++ " (" ++ type_name ++ ")"
  if include_keywords then line ++ ": " ++ c.getKeywords else line

/-- `SemanticAdapter.render_semantic_legend`: header lines and card
lines, the first named group without a leading blank line, later groups
and the trailing "General Information" group with one. -/
def renderSemanticLegend (layout : List (List Int)) (cards : List Card)
    (semantics : List (List String)) (include_keywords : Bool) : String :=
  let groups := groupCardsBySemantic layout cards semantics
  if cards.isEmpty then ""
  else
    let semanticKeys := List.insertionSort (fun a b => a ≤ b)
      ((groups.map Prod.fst).filter (fun k => k ≠ "General Information"))
    let firstBlock :=
      match semanticKeys with
      | [] => []
      | k :: _ =>
        (k ++ ":") :: (lookupGroup groups k).map (formatCardLine · include_keywords)
    let restBlocks := (semanticKeys.drop 1).flatMap (fun k =>
      ("\n" ++ k ++ ":") ::
        (lookupGroup groups k).map (formatCardLine · include_keywords))
    let lines := firstBlock ++ restBlocks
    let lines :=
      if (groups.find? (fun p => p.1 = "General Information")).isSome then
        lines ++
          ((if lines.isEmpty then "General Information:"
            else "\nGeneral Information:") ::
            (lookupGroup groups "General Information").map
              (formatCardLine · include_keywords))
      else lines
    String.intercalate "\n" lines

/-- The draw-order sublist of `cards` whose indices are assigned the
label `k` (the reference list for the grouping-order claim). -/
def cardsWithLabel (layout : List (List Int)) (cards : List Card)
    (semantics : List (List String)) (k : String) : List Card :=
  (cards.enum.filter (fun p => assignedLabel layout semantics p.1 = k)).map
    Prod.snd

/-! ### Semantic analysis and guidance rules (`SemanticAnalyzer`) -/

/-- The `VARIABLE_DEFINITIONS` placeholder vocabulary. -/
def VARIABLE_DEFINITIONS : List (String × String) := [
  ("water", "Emotional Basis/Subconscious Influences (Water)"),
  ("fire", "Karmic Forces/Cosmic Influences (Fire)"),
  ("air", "Psychic Basis/Mutable Influences (Air)"),
  ("earth", "Material/Foundation/Practical Influences (Earth)"),
  ("spirit", "Nature of Circumstances/Divine Will (Spirit)")]

/-- Replace every occurrence of `pat` (non-overlapping, left to right)
by `rep`, as Python `str.replace` does for a non-empty pattern.  The
fuel is the length of the subject, which bounds the number of steps. -/
def replaceFuel (pat rep : List Char) : Nat → List Char → List Char
  | 0, s => s
  | _, [] => []
  | fuel + 1, c :: rest =>
    if pat ≠ [] ∧ pat.isPrefixOf (c :: rest) then
      rep ++ replaceFuel pat rep fuel (List.drop (pat.length - 1) rest)
    else
      c :: replaceFuel pat rep fuel rest

/-- Python `text.replace(pat, rep)` for the non-empty patterns used by
the placeholder vocabulary. -/
def strReplace (s pat rep : String) : String :=
  String.mk (replaceFuel pat.data rep.data s.data.length s.data)

/-- `SemanticAnalyzer.resolve_variables`: substitute each vocabulary
placeholder in dictionary order. -/
def resolveVariables (text : String) : String :=
  VARIABLE_DEFINITIONS.foldl
    (fun t p => strReplace t ("$\x7b" ++ p.1 ++ "\x7d") p.2) text

/-- The four-bucket elemental tally. -/
structure ElementalBalance where
  fire : Nat
  water : Nat
  air : Nat
  earth : Nat
deriving DecidableEq, Repr

/-- Dictionary read `elements.get(element, 0)`. -/
def ElementalBalance.get (e : ElementalBalance) (k : String) : Nat :=
  if k = "fire" then e.fire
  else if k = "water" then e.water
  else if k = "air" then e.air
  else if k = "earth" then e.earth
  else 0

/-- `SemanticAnalyzer._analyze_elemental_balance`. -/
def analyzeElementalBalance (cards : List Card) : ElementalBalance :=
  cards.foldl (fun e c =>
    if c.card_type = "minor" then
      if c.suit = some "W" then { e with fire := e.fire + 1 }
      else if c.suit = some "C" then { e with water := e.water + 1 }
      else if c.suit = some "S" then { e with air := e.air + 1 }
      else if c.suit = some "P" then { e with earth := e.earth + 1 }
      else e
    else e) ⟨0, 0, 0, 0⟩

/-- `SemanticAnalyzer._is_court_card`.  (The comparison is against the
full court names, as in the source.) -/
def isCourtCard (c : Card) : Bool :=
  c.card_type = "minor" &&
    (c.value = "Page" || c.value = "Knight" || c.value = "Queen" ||
     c.value = "King")

/-- The analysis record of `SemanticAnalyzer.analyze_card_combinations`
(suit and numeral distributions flattened into fields). -/
structure Analysis where
  elemental_balance : ElementalBalance
  major_arcana_count : Nat
  minor_arcana_count : Nat
  court_cards_count : Nat
  reversed_count : Nat
  suit_wands : Nat
  suit_cups : Nat
  suit_swords : Nat
  suit_pentacles : Nat
  aces : Nat
  number_cards : Nat
  court_cards : Nat
  card_count : Nat
deriving DecidableEq, Repr

/-- `SemanticAnalyzer.analyze_card_combinations`. -/
def analyzeCardCombinations (cards : List Card) : Analysis :=
  { elemental_balance := analyzeElementalBalance cards
    major_arcana_count := cards.countP (fun c => c.card_type = "major")
    minor_arcana_count := cards.countP (fun c => c.card_type = "minor")
    court_cards_count := cards.countP (fun c => c.card_type = "minor" && isCourtCard c)
    reversed_count := cards.countP (fun c => c.is_reversed)
    suit_wands := cards.countP (fun c => c.card_type = "minor" && c.suit = some "W")
    suit_cups := cards.countP (fun c => c.card_type = "minor" && c.suit = some "C")
    suit_swords := cards.countP (fun c => c.card_type = "minor" && c.suit = some "S")
    suit_pentacles := cards.countP (fun c => c.card_type = "minor" && c.suit = some "P")
    aces := cards.countP (fun c => c.card_type = "minor" && !isCourtCard c && c.value = "A")
    number_cards := cards.countP (fun c => c.card_type = "minor" && !isCourtCard c && c.value ≠ "A")
    court_cards := cards.countP (fun c => c.card_type = "minor" && isCourtCard c)
    card_count := cards.length }

/-- One entry of the `conditions["cards"]` list, tagged by its `type`
key (`unknown` covers every other tag, which the source rejects). -/
inductive CardCondition where
  | inGroup (group : String) (required : List String)
  | anywhere (required : List String)
  | suitPresent (suits : List String)
  | cardTypeCount (card_type : String) (min_count max_count : Option Int)
  | notPresent (excluded : List String)
  | unknown
deriving DecidableEq, Repr

/-- `SemanticAnalyzer._card_condition_matches`. -/
def cardConditionMatches (cond : CardCondition) (cards : List Card)
    (groups : List (String × List Card)) : Bool :=
  match cond with
  | .inGroup group required =>
    match groups.find? (fun p => p.1 = group) with
    | some p =>
      required.all (fun req =>
        p.2.any (fun c => c.name = req || c.getNotation = req))
    | none => false
  | .anywhere required =>
    let cardNames := cards.map (fun c => c.name) ++ cards.map (fun c => c.getNotation)
    required.any (fun req => cardNames.contains req)
  | .suitPresent suits =>
    let cardSuits := (cards.filter (fun c =>
      c.card_type = "minor" && !(c.suit.getD "").isEmpty)).map
        (fun c => c.suit.getD "")
    suits.any (fun s => cardSuits.contains s)
  | .cardTypeCount ct minC maxC =>
    let minv := minC.getD 1
    let maxv := maxC.getD (cards.length : Int)
    let cnt : Int := cards.countP (fun c => c.card_type = ct)
    minv ≤ cnt && cnt ≤ maxv
  | .notPresent excluded =>
    let cardNames := cards.map (fun c => c.name) ++ cards.map (fun c => c.getNotation)
    excluded.all (fun e => !cardNames.contains e)
  | .unknown => false

/-- A guidance rule: each `conditions` key of the source's rule
dictionary becomes an optional field (`none` = key absent). -/
structure GuidanceRule where
  cards_conditions : Option (List CardCondition) := none
  major_arcana_min : Option Int := none
  major_arcana_max : Option Int := none
  minor_arcana_min : Option Int := none
  court_cards_min : Option Int := none
  reversed_min : Option Int := none
  reversed_max : Option Int := none
  elemental_balance : Option (List (String × Int)) := none
  guidance : String := ""
deriving DecidableEq, Repr

/-- A condition key that is absent always passes. -/
def checkOpt (o : Option α) (f : α → Bool) : Bool :=
  match o with
  | some a => f a
  | none => true

/-- `SemanticAnalyzer._rule_matches`: every condition present on the
rule must hold. -/
def ruleMatches (rule : GuidanceRule) (cards : List Card)
    (analysis : Analysis) (groups : List (String × List Card)) : Bool :=
  checkOpt rule.cards_conditions
    (fun ccs => ccs.all (fun cc => cardConditionMatches cc cards groups)) &&
  checkOpt rule.major_arcana_min
    (fun m => !((analysis.major_arcana_count : Int) < m)) &&
  checkOpt rule.major_arcana_max
    (fun m => !(m < (analysis.major_arcana_count : Int))) &&
  checkOpt rule.minor_arcana_min
    (fun m => !((analysis.minor_arcana_count : Int) < m)) &&
  checkOpt rule.court_cards_min
    (fun m => !((analysis.court_cards_count : Int) < m)) &&
  checkOpt rule.reversed_min
    (fun m => !((analysis.reversed_count : Int) < m)) &&
  checkOpt rule.reversed_max
    (fun m => !(m < (analysis.reversed_count : Int))) &&
  checkOpt rule.elemental_balance
    (fun conds => conds.all (fun p =>
      !((analysis.elemental_balance.get p.1 : Int) < p.2)))

/-- `SemanticAnalyzer.generate_guidance`: collect the guidance of every
matching rule in declaration order (empty resolved text is skipped),
then the two built-in insights. -/
def generateGuidance (rules : List GuidanceRule) (cards : List Card)
    (groups : List (String × List Card)) : List String :=
  let analysis := analyzeCardCombinations cards
  let ruleLines := rules.foldl (fun acc rule =>
    if ruleMatches rule cards analysis groups then
      let t := resolveVariables rule.guidance
      if t.isEmpty then acc else acc ++ ["- " ++ t]
    else acc) []
  let ruleLines :=
    if analysis.major_arcana_count > cards.length / 2 then
      ruleLines ++
        ["- **Major Arcana Dominance**: This reading carries significant spiritual or karmic weight"]
    else ruleLines
  if analysis.reversed_count > cards.length / 2 then
    ruleLines ++
      ["- **Many Reversed Cards**: Expect challenges, delays, or internal blockages"]
  else ruleLines

/-! ### Card code lookup (`resolve_card_codes`) -/

/-- Python whitespace, as stripped by `str.strip()`. -/
def isPySpace (c : Char) : Bool :=
  c = ' ' || c = '\t' || c = '\n' || c = '\r' ||
  c = Char.ofNat 11 || c = Char.ofNat 12

/-- `str.strip()`. -/
def stripList (l : List Char) : List Char :=
  ((l.dropWhile isPySpace).reverse.dropWhile isPySpace).reverse

/-- `str.split(",")`. -/
def splitCommaAux : List Char → List Char → List (List Char)
  | [], acc => [acc.reverse]
  | c :: rest, acc =>
    if c = ',' then acc.reverse :: splitCommaAux rest []
    else splitCommaAux rest (c :: acc)

/-- Python dictionary insertion: overwrite in place or append. -/
def dictInsertCard (d : List (String × Card)) (k : String) (c : Card) :
    List (String × Card) :=
  match d with
  | [] => [(k, c)]
  | (k', c') :: rest =>
    if k' = k then (k, c) :: rest else (k', c') :: dictInsertCard rest k c

/-- The lookup dictionary of `resolve_card_codes`, keyed by raw card
code over the built-in deck. -/
def cardDict : List (String × Card) :=
  createDeck.foldl (fun d c => dictInsertCard d c.getNotationCode c) []

/-- The loop body of `resolve_card_codes` for a single cleaned code:
strip bracket notation and reversal marker, normalize underscore
notation, then look the code up (the source's error text also lists
examples of valid codes). -/
def resolveOneCode (code0 : List Char) : Except String Card :=
  let marker := "[↓".data
  let upright := "[ ".data
  let stripped :=
    if marker.isPrefixOf code0 ∧ code0.getLast? = some ']' then
      (true, stripList ((code0.drop 2).dropLast))
    else if upright.isPrefixOf code0 ∧ code0.getLast? = some ']' then
      (false, stripList ((code0.drop 2).dropLast))
    else (false, code0)
  let is_reversed := stripped.1
  let code := stripped.2
  let code :=
    if code.contains '_' ∧ code.length = 3 ∧ code[1]? = some '_' then
      [code.getD 0 ' ', code.getD 2 ' ']
    else code
  match cardDict.find? (fun p => p.1 = String.mk code) with
  | some p =>
    Except.ok { name := p.2.name, card_type := p.2.card_type,
                suit := p.2.suit, value := p.2.value,
                keywords := p.2.keywords,
                reversed_keywords := p.2.reversed_keywords,
                is_reversed := is_reversed }
  | none => Except.error ("Invalid card code: " ++ String.mk code)

/-- The accumulation loop of `resolve_card_codes` (the first failing
code aborts the call, as the Python exception does). -/
def resolveCodesList : List (List Char) → Except String (List Card)
  | [] => Except.ok []
  | code :: rest =>
    match resolveOneCode code with
    | Except.ok c =>
      match resolveCodesList rest with
      | Except.ok cs => Except.ok (c :: cs)
      | Except.error e => Except.error e
    | Except.error e => Except.error e

/-- `resolve_card_codes`: CSV card codes to freshly constructed cards. -/
def resolveCardCodes (codes : String) : Except String (List Card) :=
  if codes.isEmpty then Except.ok []
  else
    resolveCodesList
      (((splitCommaAux codes.data []).map stripList).filter
        (fun c => !c.isEmpty))

/-! ### The claim-side shuffle description (for the refinement claim
about the shuffle algorithm).  These definitions follow the words of
the specification: the generator update is written with `mod 2^31`, the
swap loop runs from the last index down to 1, and the orientation pass
happens only afterwards, in final left-to-right order. -/

/-- The generator step as the specification words it. -/
def specNextInt (state maxValue : Nat) : Nat × Nat :=
  let state' := (state * 1103515245 + 12345) % 2 ^ 31
  (state' % maxValue, state')

/-- The specification's Fisher-Yates swap loop. -/
def specFyLoop : List Card → Nat → Nat → List Card × Nat
  | l, state, 0 => (l, state)
  | l, state, i + 1 =>
    let p := specNextInt state (i + 2)
    specFyLoop (listSwap l (i + 1) p.1) p.2 i

/-- The specification's orientation pass: one draw per card in final
shuffled order, reversed exactly when the draw equals 1. -/
def specAssignReversals : List Card → Nat → List Card × Nat
  | [], state => ([], state)
  | c :: cs, state =>
    let p := specNextInt state 2
    let rest := specAssignReversals cs p.2
    ({ c with is_reversed := p.1 == 1 } :: rest.1, rest.2)

/-- The shuffle as the specification describes it: copy the canonical
order, swap loop from the last index down to 1, then (only if reversals
are allowed) the orientation pass. -/
def specShuffle (cards : List Card) (state : Nat) (allow_reversed : Bool) :
    List Card × Nat :=
  let afterSwaps := specFyLoop cards state (cards.length - 1)
  if allow_reversed then specAssignReversals afterSwaps.1 afterSwaps.2
  else afterSwaps

/-! ### Concrete instances used by the claim theorems -/

/-- A `deck.draw_cards(count)` method call as state passing: the result
together with the deck after the call (the method body reads fields but
never writes one). -/
def Deck.drawCardsCall (d : Deck) (count : Nat) :
    Except String (List Card) × Deck :=
  (d.drawCards count, d)

/-- The Moon card as `_create_deck` builds it (major arcana XVIII). -/
def moonUpright : Card :=
  { name := "Moon", card_type := "major", suit := none, value := "XVIII",
    keywords := dictGetD MAJOR_ARCANA "Moon" }

/-- The Fool card as `_create_deck` builds it. -/
def foolCard : Card :=
  { name := "Fool", card_type := "major", suit := none, value := "0",
    keywords := dictGetD MAJOR_ARCANA "Fool" }

/-- The Magician card as `_create_deck` builds it. -/
def magicianCard : Card :=
  { name := "Magician", card_type := "major", suit := none, value := "I",
    keywords := dictGetD MAJOR_ARCANA "Magician" }

/-- A standard deck after one shuffle (seed 1, no reversals). -/
def shuffledStandardDeck : Deck :=
  (Deck.standard.shuffleAndAssignReversals 1 false).1

/-- The example rule of the guidance-conjunction claim: `conditions =
{major_arcana_min: 2, elemental_balance: {fire: 1}}`. -/
def exampleRule : GuidanceRule :=
  { major_arcana_min := some 2,
    elemental_balance := some [("fire", 1)],
    guidance := "Example guidance" }

/-- Two major cards and one Wands card: both example conditions hold. -/
def exampleCardsBoth : List Card := [foolCard, magicianCard,
  { name := "Ace of Wands", card_type := "minor", suit := some "W",
    value := "A", keywords := dictGetD MINOR_ARCANA "W_A" }]

/-- Two major cards and one Cups card: the fire condition fails. -/
def exampleCardsNoFire : List Card := [foolCard, magicianCard,
  { name := "Ace of Cups", card_type := "minor", suit := some "C",
    value := "A", keywords := dictGetD MINOR_ARCANA "C_A" }]

/-- One major card and one Wands card: the major-arcana condition
fails. -/
def exampleCardsOneMajor : List Card := [foolCard,
  { name := "Ace of Wands", card_type := "minor", suit := some "W",
    value := "A", keywords := dictGetD MINOR_ARCANA "W_A" }]

deriving instance DecidableEq for Except

/-! ### Helper lemmas -/

theorem nextInt_eq_spec (st m : Nat) : nextInt st m = specNextInt st m := by
  have h : (0x7fffffff : Nat) = 2 ^ 31 - 1 := by norm_num
  simp only [nextInt, specNextInt, h, Nat.and_pow_two_sub_one_eq_mod]

theorem fyLoop_eq_spec (n : Nat) :
    ∀ l st, fyLoop l st n = specFyLoop l st n := by
  induction n with
  | zero => intro l st; rfl
  | succ i ih =>
    intro l st
    simp only [fyLoop, specFyLoop, nextInt_eq_spec]
    exact ih _ _

theorem assignReversals_eq_spec (l : List Card) :
    ∀ st, assignReversals l st = specAssignReversals l st := by
  induction l with
  | nil => intro st; rfl
  | cons c cs ih =>
    intro st
    simp only [assignReversals, specAssignReversals, nextInt_eq_spec, ih]

theorem listSwap_length (l : List α) (i j : Nat) :
    (listSwap l i j).length = l.length := by
  unfold listSwap
  cases h1 : l[i]? <;> cases h2 : l[j]? <;> simp

theorem fyLoop_length (n : Nat) :
    ∀ (l : List Card) st, (fyLoop l st n).1.length = l.length := by
  induction n with
  | zero => intro l st; rfl
  | succ i ih =>
    intro l st
    simp only [fyLoop]
    rw [ih]
    exact listSwap_length l (i + 1) _

theorem assignReversals_length (l : List Card) :
    ∀ st, (assignReversals l st).1.length = l.length := by
  induction l with
  | nil => intro st; rfl
  | cons c cs ih => intro st; simp [assignReversals, ih]

theorem shuffleAssignList_length (cards : List Card) (st : Nat)
    (ar : Bool) : (shuffleAssignList cards st ar).1.length = cards.length := by
  unfold shuffleAssignList
  cases ar <;> simp [assignReversals_length, fyLoop_length]

/-! ### The claims -/

set_option maxRecDepth 100000

/-- C1: Determinism of a reading: with `random_bytes = 0` the seed does
not depend on the entropy source, so two calls to `create_seed` agree;
and for a fixed seed, layout and reversal flag, two runs of
`draw_cards_for_reading` on a freshly constructed standard deck return
the same cards with the same orientations. -/
theorem claim_C1_determinism :
    (∀ (timestamp question : String) (invocation : Option String)
       (e1 e2 : List Nat),
       createSeed timestamp question invocation 0 e1 =
         createSeed timestamp question invocation 0 e2) ∧
    (∀ (seed : Nat) (layout : SpreadInput) (allow_reversed : Bool),
       drawCardsForReading Deck.standard seed layout allow_reversed =
         drawCardsForReading Deck.standard seed layout allow_reversed) := by
  constructor
  · intro ts q inv e1 e2
    simp [createSeed]
  · intro seed layout ar
    rfl

/-- C2: The shuffle algorithm is exactly the specification's: copy the
canonical list, Fisher-Yates swaps from the last index down to 1 with
`j := next_int(i+1)`, then (only if reversals are allowed, and only
after the swap loop) one `next_int(2)` draw per card in final
left-to-right order, reversed exactly on a draw of 1; and each
`next_int(bound)` call updates the state to
`(state * 1103515245 + 12345) mod 2^31` and returns `state mod bound`. -/
theorem claim_C2_shuffle_algorithm :
    (∀ (cards : List Card) (state : Nat) (allow_reversed : Bool),
       shuffleAssignList cards state allow_reversed =
         specShuffle cards state allow_reversed) ∧
    (∀ (state bound : Nat),
       (nextInt state bound).2 = (state * 1103515245 + 12345) % 2 ^ 31 ∧
       (nextInt state bound).1 =
         (state * 1103515245 + 12345) % 2 ^ 31 % bound) := by
  constructor
  · intro cards st ar
    simp only [shuffleAssignList, specShuffle, fyLoop_eq_spec,
      assignReversals_eq_spec]
  · intro st bound
    constructor <;>
      simp [nextInt_eq_spec st bound, specNextInt]

/-- C9 counterexample: the built-in deck does not have 77 cards. -/
theorem claim_C9_counterexample : ¬ (createDeck.length = 77) := by decide

/-- C9 amended: constructing `Deck()` without a custom deck path builds
exactly 78 standard cards (22 major, 56 minor), with the shuffled list
initially empty. -/
theorem claim_C9_amended :
    Deck.standard.cards.length = 78 ∧
    (Deck.standard.cards.filter (fun c => c.card_type = "major")).length = 22 ∧
    (Deck.standard.cards.filter (fun c => c.card_type = "minor")).length = 56 ∧
    Deck.standard.shuffled = [] := by decide

/-- C10: Drawing does not consume: a `draw_cards` call leaves the deck
(both the canonical and the shuffled list) unchanged, and a second
successive call returns the same result. -/
theorem claim_C10_draw_preserves (d : Deck) (n : Nat) :
    (d.drawCardsCall n).2.cards = d.cards ∧
    (d.drawCardsCall n).2.shuffled = d.shuffled ∧
    ((d.drawCardsCall n).2.drawCardsCall n).1 = (d.drawCardsCall n).1 := by
  simp [Deck.drawCardsCall]

/-- C5: Evaluation at the failing input of the notation-width claim.
The Moon card's code "XVIII" is five characters, so left-justifying it
in a four-character field does not truncate and the token is 8
characters wide, in both orientations — contradicting the claim and the
source's own docstring ("7 characters wide"); the Moon is the only
standard card affected. -/
theorem claim_C5_notation_width_bug :
    moonUpright ∈ createDeck ∧
    moonUpright.getNotation = "[ XVIII]" ∧
    moonUpright.getNotation.length = 8 ∧
    ({ moonUpright with is_reversed := true } : Card).getNotation.length = 8 ∧
    (createDeck.filter (fun c => c.getNotation.length ≠ 7)).map
      (fun c => c.name) = ["Moon"] := by decide

/-- C4 counterexample: a draw of 100 cards from a freshly shuffled
78-card deck does not raise a range error — the Python slice clamps and
the whole shuffled sequence is returned. -/
theorem claim_C4_counterexample :
    shuffledStandardDeck.shuffled.length = 78 ∧
    shuffledStandardDeck.drawCards 100 =
      Except.ok shuffledStandardDeck.shuffled := by decide

/-- C4 amended: `draw_cards(n)` raises the invalid-state error when the
deck was never shuffled, and otherwise returns the first
`min(n, length)` cards of the shuffled sequence — `n` larger than the
shuffled length is clamped, never an error. -/
theorem claim_C4_amended (d : Deck) (n : Nat) :
    (d.shuffled.isEmpty = true →
      d.drawCards n =
        Except.error "Deck must be shuffled before drawing cards") ∧
    (d.shuffled.isEmpty = false →
      d.drawCards n = Except.ok (d.shuffled.take n) ∧
        (d.shuffled.take n).length = min n d.shuffled.length) := by
  constructor
  · intro h
    simp [Deck.drawCards, h]
  · intro h
    refine ⟨by simp [Deck.drawCards, h], ?_⟩
    simp

theorem claim_C4_witness :
    Deck.standard.drawCards 3 =
      Except.error "Deck must be shuffled before drawing cards" ∧
    shuffledStandardDeck.drawCards 100 =
      Except.ok (shuffledStandardDeck.shuffled.take 100) :=
  ⟨(claim_C4_amended Deck.standard 3).1 (by decide),
   ((claim_C4_amended shuffledStandardDeck 100).2 (by decide)).1⟩

/-- C3 counterexample: on the layout `[1, 1]` (two positive cells, one
distinct value) the number of cards drawn is 2, not the count of
distinct positive cells. -/
theorem claim_C3_counterexample :
    ¬ ((drawCardsForReading Deck.standard 0 (SpreadInput.flat [1, 1])
          false).1.map List.length =
        Except.ok (distinctPositiveCount
          (normalizeSpreadLayout (SpreadInput.flat [1, 1])).1)) := by decide

/-- C3 amended: for every layout input, `draw_cards_for_reading` on a
fresh standard deck succeeds and returns
`min(count of positive cells counted with multiplicity, deck size)`
cards; in particular the number of cards never exceeds the deck size. -/
theorem claim_C3_amended (seed : Nat) (layout : SpreadInput)
    (allow_reversed : Bool) :
    (drawCardsForReading Deck.standard seed layout allow_reversed).1 =
      Except.ok
        (((Deck.standard.shuffleAndAssignReversals seed
            allow_reversed).1).shuffled.take
          (normalizeSpreadLayout layout).2) ∧
    (drawCardsForReading Deck.standard seed layout allow_reversed).1.map
        List.length =
      Except.ok (min (normalizeSpreadLayout layout).2 createDeck.length) := by
  have hlen : ((Deck.standard.shuffleAndAssignReversals seed
      allow_reversed).1).shuffled.length = createDeck.length := by
    simp [Deck.shuffleAndAssignReversals, shuffleAssignList_length,
      Deck.standard]
  have hne : ¬ ((Deck.standard.shuffleAndAssignReversals seed
      allow_reversed).1).shuffled.isEmpty = true := by
    rw [List.isEmpty_iff_length_eq_zero, hlen]
    decide
  constructor
  · simp [drawCardsForReading, Deck.drawCards, hne]
  · simp only [drawCardsForReading, Deck.drawCards]
    rw [if_neg hne]
    simp only [Except.map]
    rw [List.length_take, hlen]

/-- C6: Notation round-trip: for every card of the built-in deck and
either orientation, parsing the card's formatted token with
`resolve_card_codes` yields exactly one card — a copy of the original
with the requested orientation, hence with the same raw code and the
same `is_reversed` flag. -/
theorem claim_C6_roundtrip :
    ∀ c ∈ createDeck, ∀ rev : Bool,
      resolveCardCodes ({ c with is_reversed := rev } : Card).getNotation =
        Except.ok [{ c with is_reversed := rev }] := by decide

theorem claim_C6_witness :
    resolveCardCodes
        ({ moonUpright with is_reversed := true } : Card).getNotation =
      Except.ok [{ moonUpright with is_reversed := true }] :=
  claim_C6_roundtrip moonUpright (by decide) true
theorem lookupGroup_nil (k : String) : lookupGroup [] k = [] := rfl

theorem lookupGroup_cons (k' : String) (cs : List Card)
    (rest : List (String × List Card)) (k : String) :
    lookupGroup ((k', cs) :: rest) k =
      if k' = k then cs else lookupGroup rest k := by
  by_cases h : k' = k <;> simp [lookupGroup, List.find?_cons, h]

theorem lookupGroup_addToGroup (groups : List (String × List Card))
    (key k : String) (c : Card) :
    lookupGroup (addToGroup groups key c) k =
      if k = key then lookupGroup groups k ++ [c]
      else lookupGroup groups k := by
  induction groups with
  | nil =>
    by_cases h : k = key
    · simp [addToGroup, lookupGroup_cons, h, lookupGroup_nil]
    · simp [addToGroup, lookupGroup_cons, h, Ne.symm h, lookupGroup_nil]
  | cons p rest ih =>
    obtain ⟨k', cs⟩ := p
    by_cases hk : k' = key
    · subst hk
      by_cases hkk : k = k'
      · subst hkk; simp [addToGroup, lookupGroup_cons]
      · simp [addToGroup, lookupGroup_cons, hkk, Ne.symm hkk]
    · by_cases hkk : k' = k
      · subst hkk
        have : ¬ k' = key := hk
        simp [addToGroup, hk, lookupGroup_cons, Ne.symm hk]
      · simp [addToGroup, hk, lookupGroup_cons, hkk, ih]

theorem map_fst_addToGroup (groups : List (String × List Card))
    (key : String) (c : Card) :
    (addToGroup groups key c).map Prod.fst =
      if key ∈ groups.map Prod.fst then groups.map Prod.fst
      else groups.map Prod.fst ++ [key] := by
  induction groups with
  | nil => simp [addToGroup]
  | cons p rest ih =>
    obtain ⟨k', cs⟩ := p
    by_cases h : k' = key
    · simp [addToGroup, h]
    · simp only [addToGroup, if_neg h, List.map_cons, ih]
      by_cases hmem : key ∈ rest.map Prod.fst
      · simp [hmem, Ne.symm h]
      · simp [hmem, Ne.symm h]

theorem mem_keys_addToGroup (groups : List (String × List Card))
    (key : String) (c : Card) (k : String) :
    k ∈ (addToGroup groups key c).map Prod.fst ↔
      k ∈ groups.map Prod.fst ∨ k = key := by
  rw [map_fst_addToGroup]
  split_ifs with h
  · constructor
    · exact fun hk => Or.inl hk
    · rintro (hk | rfl)
      · exact hk
      · exact h
  · simp [List.mem_append]

theorem groupCardsAux_lookup (layout : List (List Int))
    (semantics : List (List String)) (cs : List Card) :
    ∀ (idx : Nat) (groups : List (String × List Card)) (k : String),
      lookupGroup (groupCardsAux layout semantics cs idx groups) k =
        lookupGroup groups k ++
          ((cs.enumFrom idx).filter
            (fun p => assignedLabel layout semantics p.1 = k)).map
            Prod.snd := by
  induction cs with
  | nil => intro idx groups k; simp [groupCardsAux]
  | cons c rest ih =>
    intro idx groups k
    simp only [groupCardsAux, List.enumFrom, List.filter_cons]
    rw [ih, lookupGroup_addToGroup]
    by_cases h : assignedLabel layout semantics idx = k
    · simp [h]
    · simp [h, Ne.symm h]

theorem groupCardsAux_mem_keys (layout : List (List Int))
    (semantics : List (List String)) (cs : List Card) :
    ∀ (idx : Nat) (groups : List (String × List Card)) (k : String),
      k ∈ (groupCardsAux layout semantics cs idx groups).map Prod.fst ↔
        (k ∈ groups.map Prod.fst ∨
          ∃ p ∈ cs.enumFrom idx, assignedLabel layout semantics p.1 = k) := by
  induction cs with
  | nil => intro idx groups k; simp [groupCardsAux]
  | cons c rest ih =>
    intro idx groups k
    simp only [groupCardsAux, List.enumFrom]
    rw [ih, mem_keys_addToGroup]
    constructor
    · rintro ((hk | rfl) | ⟨p, hp, hl⟩)
      · exact Or.inl hk
      · exact Or.inr ⟨(idx, c), by simp, rfl⟩
      · exact Or.inr ⟨p, by simp [hp], hl⟩
    · rintro (hk | ⟨p, hp, hl⟩)
      · exact Or.inl (Or.inl hk)
      · rcases List.mem_cons.mp hp with rfl | hp'
        · exact Or.inl (Or.inr hl.symm)
        · exact Or.inr ⟨p, hp', hl⟩

theorem groupCards_lookup_eq (layout : List (List Int)) (cards : List Card)
    (semantics : List (List String)) (k : String) :
    lookupGroup (groupCardsBySemantic layout cards semantics) k =
      cardsWithLabel layout cards semantics k := by
  have henum : cards.enum = cards.enumFrom 0 := rfl
  unfold groupCardsBySemantic cardsWithLabel
  rw [groupCardsAux_lookup, henum, lookupGroup_nil]
  simp

theorem groupCards_mem_keys (layout : List (List Int)) (cards : List Card)
    (semantics : List (List String)) (k : String) :
    k ∈ (groupCardsBySemantic layout cards semantics).map Prod.fst ↔
      ∃ p ∈ cards.enumFrom 0, assignedLabel layout semantics p.1 = k := by
  unfold groupCardsBySemantic
  rw [groupCardsAux_mem_keys]
  simp

theorem legendGroups_map_fst (layout : List (List Int)) (cards : List Card)
    (semantics : List (List String)) :
    (legendGroups layout cards semantics).map Prod.fst =
      List.insertionSort (fun a b => a ≤ b)
        (((groupCardsBySemantic layout cards semantics).map Prod.fst).filter
          (fun k => k ≠ "General Information")) ++
      (if ((groupCardsBySemantic layout cards semantics).find?
            (fun p => p.1 = "General Information")).isSome
       then ["General Information"] else []) := by
  simp only [legendGroups, List.map_append, List.map_map]
  congr 1
  · have hid : (Prod.fst ∘ fun k : String =>
        (k, lookupGroup (groupCardsBySemantic layout cards semantics) k)) =
          id := rfl
    rw [hid, List.map_id]
  · split_ifs <;> simp

theorem sortedKeys_GI_notmem (layout : List (List Int)) (cards : List Card)
    (semantics : List (List String)) :
    "General Information" ∉
      List.insertionSort (fun a b => a ≤ b)
        (((groupCardsBySemantic layout cards semantics).map Prod.fst).filter
          (fun k => k ≠ "General Information")) := by
  intro h
  have h2 := (List.perm_insertionSort (fun a b => a ≤ b) _).mem_iff.mp h
  have h3 := (List.mem_filter.mp h2).2
  simp at h3

set_option maxHeartbeats 1000000

/-- C7: Grouping order contract: in the rendered semantic legend the
named groups appear sorted lexicographically by label, the
"General Information" group never appears anywhere but last, every
group's card list is the draw-order sublist of the cards assigned its
label, and every drawn card's label has a group in the legend.  (The
witness instantiates the "Zzz" example: a group named "Zzz" still
precedes "General Information".) -/
theorem claim_C7_grouping_order (layout : List (List Int)) (cards : List Card)
    (semantics : List (List String)) :
    List.Sorted (fun a b => a ≤ b)
      (((legendGroups layout cards semantics).map Prod.fst).filter
        (fun k => k ≠ "General Information")) ∧
    "General Information" ∉
      ((legendGroups layout cards semantics).map Prod.fst).dropLast ∧
    (∀ p ∈ legendGroups layout cards semantics,
      p.2 = cardsWithLabel layout cards semantics p.1) ∧
    (∀ q ∈ cards.enum,
      assignedLabel layout semantics q.1 ∈
        (legendGroups layout cards semantics).map Prod.fst) := by
  refine ⟨?_, ?_, ?_, ?_⟩
  · rw [legendGroups_map_fst, List.filter_append]
    have h1 : (List.insertionSort (fun a b => a ≤ b)
        (((groupCardsBySemantic layout cards semantics).map Prod.fst).filter
          (fun k => k ≠ "General Information"))).filter
            (fun k => k ≠ "General Information") =
        List.insertionSort (fun a b => a ≤ b)
          (((groupCardsBySemantic layout cards semantics).map Prod.fst).filter
            (fun k => k ≠ "General Information")) := by
      apply List.filter_eq_self.mpr
      intro a ha
      have h2 := (List.perm_insertionSort (fun a b => a ≤ b) _).mem_iff.mp ha
      exact (List.mem_filter.mp h2).2
    rw [h1]
    have h2 : ((if ((groupCardsBySemantic layout cards semantics).find?
          (fun p => p.1 = "General Information")).isSome
        then ["General Information"] else []).filter
          (fun k => k ≠ "General Information") : List String) = [] := by
      split_ifs <;> simp
    rw [h2, List.append_nil]
    exact List.sorted_insertionSort _ _
  · rw [legendGroups_map_fst]
    split_ifs with h
    · rw [List.dropLast_concat]
      exact sortedKeys_GI_notmem layout cards semantics
    · rw [List.append_nil]
      intro hmem
      exact sortedKeys_GI_notmem layout cards semantics
        ((List.dropLast_sublist _).mem hmem)
  · intro p hp
    simp only [legendGroups] at hp
    rcases List.mem_append.mp hp with hp1 | hp2
    · obtain ⟨k, hk, rfl⟩ := List.mem_map.mp hp1
      exact groupCards_lookup_eq layout cards semantics k
    · split_ifs at hp2 with h
      · rw [List.mem_singleton.mp hp2]
        exact groupCards_lookup_eq layout cards semantics _
      · simp at hp2
  · intro q hq
    have henum : cards.enum = cards.enumFrom 0 := rfl
    rw [legendGroups_map_fst]
    by_cases hk : assignedLabel layout semantics q.1 = "General Information"
    · have hin : "General Information" ∈
          (groupCardsBySemantic layout cards semantics).map Prod.fst :=
        (groupCards_mem_keys layout cards semantics _).mpr
          ⟨q, by rw [← henum]; exact hq, hk⟩
      have hfind : ((groupCardsBySemantic layout cards semantics).find?
          (fun p => p.1 = "General Information")).isSome := by
        rw [List.find?_isSome]
        obtain ⟨pair, hpair, hfst⟩ := List.mem_map.mp hin
        exact ⟨pair, hpair, by simp [hfst]⟩
      rw [hk, if_pos hfind]
      exact List.mem_append.mpr (Or.inr (by simp))
    · have hin : assignedLabel layout semantics q.1 ∈
          (groupCardsBySemantic layout cards semantics).map Prod.fst :=
        (groupCards_mem_keys layout cards semantics _).mpr
          ⟨q, by rw [← henum]; exact hq, rfl⟩
      have hfil : assignedLabel layout semantics q.1 ∈
          ((groupCardsBySemantic layout cards semantics).map Prod.fst).filter
            (fun k => k ≠ "General Information") :=
        List.mem_filter.mpr ⟨hin, by simp [hk]⟩
      exact List.mem_append.mpr (Or.inl
        ((List.perm_insertionSort (fun a b => a ≤ b) _).mem_iff.mpr hfil))

theorem checkOpt_eq_true (o : Option α) (f : α → Bool) :
    checkOpt o f = true ↔ ∀ a, o = some a → f a = true := by
  cases o <;> simp [checkOpt]

theorem guidance_foldl (cards : List Card) (analysis : Analysis)
    (groups : List (String × List Card)) :
    ∀ (rules : List GuidanceRule) (acc : List String),
      rules.foldl (fun acc rule =>
        if ruleMatches rule cards analysis groups then
          let t := resolveVariables rule.guidance
          if t.isEmpty then acc else acc ++ ["- " ++ t]
        else acc) acc =
      acc ++ rules.filterMap (fun r =>
        if ruleMatches r cards analysis groups then
          (if (resolveVariables r.guidance).isEmpty then none
           else some ("- " ++ resolveVariables r.guidance))
        else none) := by
  intro rules
  induction rules with
  | nil => intro acc; simp
  | cons r rest ih =>
    intro acc
    simp only [List.foldl_cons, List.filterMap_cons]
    by_cases hm : ruleMatches r cards analysis groups = true
    · by_cases he : (resolveVariables r.guidance).isEmpty = true
      · simp only [hm, if_true, he, ih]
      · simp only [hm, if_true, he, if_false, ih, Bool.false_eq_true]
        simp [ih]
    · simp only [Bool.not_eq_true] at hm
      simp [hm, ih]

theorem filterMap_filter_guard (cards : List Card) (analysis : Analysis)
    (groups : List (String × List Card)) (rules : List GuidanceRule) :
    rules.filterMap (fun r =>
      if ruleMatches r cards analysis groups then
        (if (resolveVariables r.guidance).isEmpty then none
         else some ("- " ++ resolveVariables r.guidance))
      else none) =
    (rules.filter (fun r => ruleMatches r cards analysis groups)).filterMap
      (fun r =>
        if (resolveVariables r.guidance).isEmpty then none
        else some ("- " ++ resolveVariables r.guidance)) := by
  induction rules with
  | nil => rfl
  | cons r rest ih =>
    by_cases hm : ruleMatches r cards analysis groups = true
    · simp [List.filterMap_cons, List.filter_cons, hm, ih]
    · simp only [Bool.not_eq_true] at hm
      simp [List.filterMap_cons, List.filter_cons, hm, ih]

/-- C8: Guidance rule matching is the conjunction of the conditions
present on the rule: a rule matches iff every present condition holds
(so a rule with zero conditions always matches); every matching rule's
non-empty resolved guidance is emitted, collected in declaration order
without stopping at the first match; and the example rule with both a
`major_arcana_min` and an `elemental_balance` condition fires exactly
when both hold. -/
theorem claim_C8_rule_conjunction :
    (∀ (rule : GuidanceRule) (cards : List Card) (analysis : Analysis)
       (groups : List (String × List Card)),
      ruleMatches rule cards analysis groups = true ↔
        ((∀ ccs, rule.cards_conditions = some ccs →
            ∀ cc ∈ ccs, cardConditionMatches cc cards groups = true) ∧
         (∀ m, rule.major_arcana_min = some m →
            m ≤ (analysis.major_arcana_count : Int)) ∧
         (∀ m, rule.major_arcana_max = some m →
            (analysis.major_arcana_count : Int) ≤ m) ∧
         (∀ m, rule.minor_arcana_min = some m →
            m ≤ (analysis.minor_arcana_count : Int)) ∧
         (∀ m, rule.court_cards_min = some m →
            m ≤ (analysis.court_cards_count : Int)) ∧
         (∀ m, rule.reversed_min = some m →
            m ≤ (analysis.reversed_count : Int)) ∧
         (∀ m, rule.reversed_max = some m →
            (analysis.reversed_count : Int) ≤ m) ∧
         (∀ eb, rule.elemental_balance = some eb →
            ∀ p ∈ eb, p.2 ≤ (analysis.elemental_balance.get p.1 : Int)))) ∧
    (∀ (guidance_text : String) (cards : List Card) (analysis : Analysis)
       (groups : List (String × List Card)),
      ruleMatches { guidance := guidance_text } cards analysis groups = true) ∧
    (∀ (rules : List GuidanceRule) (cards : List Card)
       (groups : List (String × List Card)),
      generateGuidance rules cards groups =
        ((rules.filter (fun r =>
            ruleMatches r cards (analyzeCardCombinations cards) groups)).filterMap
          (fun r =>
            if (resolveVariables r.guidance).isEmpty then none
            else some ("- " ++ resolveVariables r.guidance)) ++
         (if (analyzeCardCombinations cards).major_arcana_count >
              cards.length / 2 then
            ["- **Major Arcana Dominance**: This reading carries significant spiritual or karmic weight"]
          else []) ++
         (if (analyzeCardCombinations cards).reversed_count >
              cards.length / 2 then
            ["- **Many Reversed Cards**: Expect challenges, delays, or internal blockages"]
          else []))) ∧
    (ruleMatches exampleRule exampleCardsBoth
        (analyzeCardCombinations exampleCardsBoth) [] = true ∧
     ruleMatches exampleRule exampleCardsNoFire
        (analyzeCardCombinations exampleCardsNoFire) [] = false ∧
     ruleMatches exampleRule exampleCardsOneMajor
        (analyzeCardCombinations exampleCardsOneMajor) [] = false) := by
  refine ⟨?_, ?_, ?_, by decide, by decide, by decide⟩
  · intro rule cards analysis groups
    simp only [ruleMatches, Bool.and_eq_true, checkOpt_eq_true,
      List.all_eq_true]
    simp only [not_lt, Bool.not_eq_true', decide_eq_false_iff_not, not_lt]
    tauto
  · intro gt cards analysis groups
    simp [ruleMatches, checkOpt]
  · intro rules cards groups
    simp only [generateGuidance]
    rw [guidance_foldl, filterMap_filter_guard]
    simp only [List.nil_append]
    by_cases h1 : (analyzeCardCombinations cards).major_arcana_count >
        cards.length / 2 <;>
      by_cases h2 : (analyzeCardCombinations cards).reversed_count >
          cards.length / 2 <;>
        simp [h1, h2]

theorem claim_C7_witness :
    legendGroups [[1, 2]] [foolCard, magicianCard] [["Zzz", ""]] =
      [("Zzz", [foolCard]), ("General Information", [magicianCard])] ∧
    ("Zzz", [foolCard]).2 =
      cardsWithLabel [[1, 2]] [foolCard, magicianCard] [["Zzz", ""]]
        ("Zzz", [foolCard]).1 :=
  ⟨by decide,
   (claim_C7_grouping_order [[1, 2]] [foolCard, magicianCard]
       [["Zzz", ""]]).2.2.1 ("Zzz", [foolCard]) (by decide)⟩

theorem claim_C8_witness :
    ruleMatches exampleRule exampleCardsBoth
      (analyzeCardCombinations exampleCardsBoth) [] = true :=
  (claim_C8_rule_conjunction.1 exampleRule exampleCardsBoth
      (analyzeCardCombinations exampleCardsBoth) []).mpr
    ⟨fun ccs h => by simp [exampleRule] at h,
     fun m hm => by simp only [exampleRule] at hm; rw [← Option.some.inj hm]; decide,
     fun m hm => by simp [exampleRule] at hm,
     fun m hm => by simp [exampleRule] at hm,
     fun m hm => by simp [exampleRule] at hm,
     fun m hm => by simp [exampleRule] at hm,
     fun m hm => by simp [exampleRule] at hm,
     fun eb heb => by
       simp only [exampleRule] at heb
       rw [← Option.some.inj heb]
       decide⟩
